import Mathlib

/-
Shallow embedding of `airflow_operators_metrics/metrics.py`.

The source is a Prometheus collector for Airflow worker processes:
`get_airflow_data` recognises a worker from its command line and extracts
five identity fields, `_get_processes_metrics` scans the live process
table and yields one `ProcessMetrics` record per matched process, and
`MetricsContainer` (modelled here as `CState` with `_reset`,
`_handle_process_metrics`, `collectLoop`/`collectCycle`) owns the gauges
and republishes the records on every cycle.

Python strings are modelled through explicit helpers (`pySplitWs` for
`str.split()`, `pyIn` for the `in` substring test, `pyStarts` for
`str.startswith`, `pySlice` for `s[a:b]`, `pyJoin` for `sep.join`,
`pyGet` for indexing that raises `IndexError`).  Fallible code returns
`Except PyErr`; `psutil.NoSuchProcess` and `IndexError` are the two
error shapes the scanned code can produce.
-/

namespace AirflowMetrics

/-- Substring test on character lists: `needle` occurs contiguously in `hay`. -/
def listContains (hay needle : List Char) : Bool :=
  match hay with
  | [] => needle.isEmpty
  | _ :: t => needle.isPrefixOf hay || listContains t needle

/-- Python `needle in hay` on strings. -/
def pyIn (needle hay : String) : Bool :=
  listContains hay.data needle.data

/-- Python `s.startswith(p)`. -/
def pyStarts (s p : String) : Bool :=
  p.data.isPrefixOf s.data

/-- Accumulator for `pySplitWs`: `cur` holds the reversed current run of
non-whitespace characters. -/
def splitWsAux : List Char → List Char → List String
  | [], [] => []
  | [], cur => [String.mk cur.reverse]
  | c :: rest, cur =>
    if c.isWhitespace then
      match cur with
      | [] => splitWsAux rest []
      | _ => String.mk cur.reverse :: splitWsAux rest []
    else splitWsAux rest (c :: cur)

/-- Python `s.split()` with no argument: the maximal runs of non-whitespace
characters, in order (empty pieces never appear). -/
def pySplitWs (s : String) : List String :=
  splitWsAux s.data []

/-- Python `s[a:b]` for nonnegative `a ≤ b`: characters `a` to `b-1`, clamped
to the length of the string. -/
def pySlice (s : String) (a b : Nat) : String :=
  String.mk ((s.data.take b).drop a)

/-- Python `sep.join(parts)`. -/
def pyJoin (sep : String) : List String → String
  | [] => ""
  | [x] => x
  | x :: xs => x ++ sep ++ pyJoin sep xs

/-- Errors the scanned code can raise: `IndexError` from list indexing and
`psutil.NoSuchProcess` from process attribute fetches. -/
inductive PyErr where
  | indexError
  | noSuchProcess
deriving DecidableEq, Repr

/-- Python `lst[i]`, raising `IndexError` when out of range. -/
def pyGet (l : List String) (i : Nat) : Except PyErr String :=
  match l[i]? with
  | some x => Except.ok x
  | none => Except.error PyErr.indexError

/-- The dictionary returned by `get_airflow_data` (metrics.py lines 196-202). -/
structure AirflowData where
  dag : String
  operator : String
  exec_date : String
  is_local : Bool
  is_raw : Bool
deriving DecidableEq, Repr

/-- Body of the loop in `get_airflow_data` for the matching token
(metrics.py lines 189-202): split the token, index positions 3/4/5, slice,
and test the flags by exact sub-token equality. -/
def extractFromToken (tok : String) : Except PyErr AirflowData := do
  let airflow_args := pySplitWs tok
  let dag ← pyGet airflow_args 3
  let operator ← pyGet airflow_args 4
  let date_tok ← pyGet airflow_args 5
  pure { dag := dag
         operator := operator
         exec_date := pySlice date_tok 5 25
         is_local := airflow_args.any (fun i => i == "--local")
         is_raw := airflow_args.any (fun i => i == "--raw") }

/-- The `for cmd_arg in cmdline` loop of `get_airflow_data` (lines 185-202):
skip tokens without the `'airflow run'` marker, extract from the first token
that has it, fall off the end with `None`. -/
def findRun : List String → Except PyErr (Option AirflowData)
  | [] => Except.ok none
  | tok :: rest =>
    if pyIn "airflow run" tok then (extractFromToken tok).map some
    else findRun rest

/-- `get_airflow_data` (metrics.py lines 179-202) on an already-fetched
command line: the interpreter-path filter, then the marker loop. -/
def get_airflow_data (cmdline : List String) : Except PyErr (Option AirflowData) :=
  match cmdline with
  | [] => Except.ok none
  | c0 :: _ =>
    if pyStarts c0 "/usr/bin/python" = false then Except.ok none
    else findRun cmdline

/-- Whether a command line survives the line-182 filter: nonempty and first
token starting with `/usr/bin/python`. -/
def passesInterpFilter : List String → Bool
  | [] => false
  | c0 :: _ => pyStarts c0 "/usr/bin/python"

/-- Whether `get_airflow_data` recognises the command line (returns a dict). -/
def isMatch (cl : List String) : Bool :=
  match get_airflow_data cl with
  | Except.ok (some _) => true
  | _ => false

/-- Whether `get_airflow_data` runs without raising on this command line. -/
def noExtractError (cl : List String) : Bool :=
  match get_airflow_data cl with
  | Except.error _ => false
  | Except.ok _ => true

/-- The `ProcessMetrics` named tuple (metrics.py lines 13-33).  Memory
counters are integers, CPU counters are rationals standing for the source's
floats (the code only stores them, never computes with them). -/
structure ProcessMetrics where
  dag : String
  operator : String
  exec_date : String
  is_local : Bool
  is_raw : Bool
  mem_rss : Int
  mem_vms : Int
  mem_shared : Int
  mem_text : Int
  mem_data : Int
  mem_lib : Int
  mem_uss : Int
  mem_pss : Int
  mem_swap : Int
  cpu_percent : Rat
  cpu_times_user : Rat
  cpu_times_system : Rat
deriving DecidableEq, Repr

/-- Result of `psutil.Process.memory_full_info()`, the nine fields the code
reads. -/
structure MemInfo where
  rss : Int
  vms : Int
  shared : Int
  text : Int
  data : Int
  lib : Int
  uss : Int
  pss : Int
  swap : Int
deriving DecidableEq, Repr

/-- Result of `psutil.Process.cpu_times()`, the two fields the code reads. -/
structure CpuTimes where
  user : Rat
  system : Rat
deriving DecidableEq, Repr

/-- At which point during the scan of one process the process disappears
(every later psutil call raises `NoSuchProcess`).  `never` means the process
stays present through all four fetches. -/
inductive VanishStage where
  | beforeCmdline
  | beforeMem
  | beforeCpuTimes
  | beforeCpuPercent
  | never
deriving DecidableEq, Repr

/-- Number of psutil fetches that still succeed before the process vanishes:
fetch number `k` (0 = cmdline, 1 = memory_full_info, 2 = cpu_times,
3 = cpu_percent) succeeds exactly when `k < rank`. -/
def VanishStage.rank : VanishStage → Nat
  | beforeCmdline => 0
  | beforeMem => 1
  | beforeCpuTimes => 2
  | beforeCpuPercent => 3
  | never => 4

/-- One live process as the scan sees it: the attribute values psutil would
report, plus the point at which the process vanishes. -/
structure Proc where
  cmdline : List String
  mem : MemInfo
  cpu_times : CpuTimes
  cpu_percent : Rat
  vanish : VanishStage
deriving DecidableEq, Repr

/-- The `k`-th psutil fetch on `p`: returns the value, or raises
`NoSuchProcess` when the process has vanished by then. -/
def fetchAt {α : Type} (p : Proc) (k : Nat) (x : α) : Except PyErr α :=
  if p.vanish.rank ≤ k then Except.error PyErr.noSuchProcess else Except.ok x

/-- Assembly of the `ProcessMetrics` record (metrics.py lines 134-153). -/
def buildRec (a : AirflowData) (mem : MemInfo) (ct : CpuTimes) (cp : Rat) :
    ProcessMetrics :=
  { dag := a.dag
    operator := a.operator
    exec_date := a.exec_date
    is_local := a.is_local
    is_raw := a.is_raw
    mem_rss := mem.rss
    mem_vms := mem.vms
    mem_shared := mem.shared
    mem_text := mem.text
    mem_data := mem.data
    mem_lib := mem.lib
    mem_uss := mem.uss
    mem_pss := mem.pss
    mem_swap := mem.swap
    cpu_percent := cp
    cpu_times_user := ct.user
    cpu_times_system := ct.system }

/-- The body of one iteration of `_get_processes_metrics` (metrics.py lines
124-154): the `try` block, returning `none` for a non-match, the record for a
match, or the raised error. -/
def scanStep (p : Proc) : Except PyErr (Option ProcessMetrics) := do
  let cl ← fetchAt p 0 p.cmdline
  let ad ← get_airflow_data cl
  match ad with
  | none => pure none
  | some a => do
    let mem ← fetchAt p 1 p.mem
    let ct ← fetchAt p 2 p.cpu_times
    let cp ← fetchAt p 3 p.cpu_percent
    pure (some (buildRec a mem ct cp))

/-- `_get_processes_metrics` (metrics.py lines 122-154) driven to completion
over a process list: `except psutil.NoSuchProcess: continue` absorbs exactly
`noSuchProcess`; any other raised error aborts the whole scan. -/
def _get_processes_metrics : List Proc → Except PyErr (List ProcessMetrics)
  | [] => Except.ok []
  | p :: ps =>
    match scanStep p with
    | Except.error PyErr.noSuchProcess => _get_processes_metrics ps
    | Except.error e => Except.error e
    | Except.ok none => _get_processes_metrics ps
    | Except.ok (some m) => (_get_processes_metrics ps).map (fun rs => m :: rs)

/-- `_get_process_name` (metrics.py lines 157-168). -/
def _get_process_name (m : ProcessMetrics) : String :=
  let base := if pyIn m.dag m.operator = false then m.dag ++ "." ++ m.operator
              else m.operator
  let parts1 := [base, m.exec_date]
  let parts2 := if m.is_local then parts1 ++ ["local"] else parts1
  let parts3 := if m.is_raw then parts2 ++ ["is_raw"] else parts2
  pyJoin "_" parts3

/-- The label mapping built in `_handle_process_metrics` (lines 90-94): the
four base keys plus the container's static global labels. -/
structure Labels where
  name : String
  dag : String
  operator : String
  exec_date : String
  extra : List (String × String)
deriving DecidableEq, Repr

/-- Label mapping for one record, given the container's global labels. -/
def mkLabels (gl : List (String × String)) (m : ProcessMetrics) : Labels :=
  { name := _get_process_name m
    dag := m.dag
    operator := m.operator
    exec_date := m.exec_date
    extra := gl }

/-- One gauge's `_metrics` dict: the currently exported label-value tuples. -/
abbrev GaugeState (α : Type) := List (Labels × α)

/-- `gauge.labels(**labels).set(v)`: write `v` under label tuple `l`,
replacing an existing entry for `l`. -/
def gset {α : Type} : GaugeState α → Labels → α → GaugeState α
  | [], l, v => [(l, v)]
  | e :: t, l, v => if e.1 = l then (l, v) :: t else e :: gset t l v

/-- The value a gauge currently exports under label tuple `l`, if any. -/
def glookup {α : Type} : GaugeState α → Labels → Option α
  | [], _ => none
  | e :: t, l => if e.1 = l then some e.2 else glookup t l

/-- The mutable state of `MetricsContainer`: the `_metrics` dict of each of
the eleven gauges created in `__init__` (metrics.py lines 51-78), in source
order.  `mem_data` has no gauge in the source and none here. -/
structure CState where
  mem_rss : GaugeState Int
  mem_vms : GaugeState Int
  mem_shared : GaugeState Int
  mem_text : GaugeState Int
  mem_lib : GaugeState Int
  mem_uss : GaugeState Int
  mem_swap : GaugeState Int
  mem_pss : GaugeState Int
  cpu_percent : GaugeState Rat
  cpu_times_user : GaugeState Rat
  cpu_times_system : GaugeState Rat
deriving DecidableEq, Repr

/-- A freshly constructed container: every gauge starts with no series. -/
def initState : CState :=
  { mem_rss := [], mem_vms := [], mem_shared := [], mem_text := []
    mem_lib := [], mem_uss := [], mem_swap := [], mem_pss := []
    cpu_percent := [], cpu_times_user := [], cpu_times_system := [] }

/-- `MetricsContainer._reset` (metrics.py lines 108-119): empties the
`_metrics` dict of ten gauges.  `_mem_lib` is absent from the source's reset
list and is left untouched here as well. -/
def _reset (s : CState) : CState :=
  { s with
    mem_rss := [], mem_vms := [], mem_shared := [], mem_text := []
    mem_uss := [], mem_swap := [], mem_pss := []
    cpu_percent := [], cpu_times_user := [], cpu_times_system := [] }

/-- `MetricsContainer._handle_process_metrics` (metrics.py lines 89-106):
build the label mapping and set ten gauges from the record's fields.
`_mem_lib` is never set in the source and is not set here. -/
def _handle_process_metrics (gl : List (String × String)) (s : CState)
    (m : ProcessMetrics) : CState :=
  let l := mkLabels gl m
  { s with
    mem_rss := gset s.mem_rss l m.mem_rss
    mem_vms := gset s.mem_vms l m.mem_vms
    mem_shared := gset s.mem_shared l m.mem_shared
    mem_text := gset s.mem_text l m.mem_text
    mem_uss := gset s.mem_uss l m.mem_uss
    mem_swap := gset s.mem_swap l m.mem_swap
    mem_pss := gset s.mem_pss l m.mem_pss
    cpu_percent := gset s.cpu_percent l m.cpu_percent
    cpu_times_user := gset s.cpu_times_user l m.cpu_times_user
    cpu_times_system := gset s.cpu_times_system l m.cpu_times_system }

/-- The `for process_metrics in _get_processes_metrics()` loop of `collect`
(lines 84-86), consuming the generator lazily: caught `NoSuchProcess` skips,
any other raised error aborts the cycle. -/
def collectLoop (gl : List (String × String)) (s : CState) :
    List Proc → Except PyErr CState
  | [] => Except.ok s
  | p :: ps =>
    match scanStep p with
    | Except.error PyErr.noSuchProcess => collectLoop gl s ps
    | Except.error e => Except.error e
    | Except.ok none => collectLoop gl s ps
    | Except.ok (some m) => collectLoop gl (_handle_process_metrics gl s m) ps

/-- `MetricsContainer.collect` (metrics.py lines 80-87) on the current
process table: `_reset`, then handle every yielded record. -/
def collectCycle (gl : List (String × String)) (s : CState)
    (ps : List Proc) : Except PyErr CState :=
  collectLoop gl (_reset s) ps

/-- Whether any of the eleven gauges exports a value under label tuple `l`. -/
def tupleInSomeGauge (s : CState) (l : Labels) : Bool :=
  (glookup s.mem_rss l).isSome || (glookup s.mem_vms l).isSome ||
  (glookup s.mem_shared l).isSome || (glookup s.mem_text l).isSome ||
  (glookup s.mem_lib l).isSome || (glookup s.mem_uss l).isSome ||
  (glookup s.mem_swap l).isSome || (glookup s.mem_pss l).isSome ||
  (glookup s.cpu_percent l).isSome || (glookup s.cpu_times_user l).isSome ||
  (glookup s.cpu_times_system l).isSome

/-- The record the scan yields for `p` when `p` is matched, `none` for a
non-match (used only to state theorems about the scan's output). -/
def recordOf (p : Proc) : Option ProcessMetrics :=
  match get_airflow_data p.cmdline with
  | Except.ok (some a) => some (buildRec a p.mem p.cpu_times p.cpu_percent)
  | _ => none

/-- The full record list of one scan over `ps`, assuming no extraction
error: one record per process that stays present and is matched. -/
def cycleRecords (ps : List Proc) : List ProcessMetrics :=
  ps.filterMap (fun p =>
    if p.vanish == VanishStage.never then recordOf p else none)

/-- Number of processes that stay present through all fetches and whose
command line is matched. -/
def liveMatchedCount (ps : List Proc) : Nat :=
  (ps.filter (fun p =>
    (p.vanish == VanishStage.never) && isMatch p.cmdline)).length

/-- A matched worker process with a well-formed invocation token that stays
present through the whole scan. -/
def procGood : Proc :=
  { cmdline := ["/usr/bin/python /usr/bin/airflow run mydag myop 2023-03-03T00:00:00+00:00 --local"]
    mem := { rss := 1, vms := 2, shared := 3, text := 4, data := 5,
             lib := 6, uss := 7, pss := 8, swap := 9 }
    cpu_times := { user := 10, system := 11 }
    cpu_percent := 12
    vanish := VanishStage.never }

/-- The record the scan yields for `procGood`. -/
def recGood : ProcessMetrics :=
  { dag := "mydag", operator := "myop", exec_date := "03-03T00:00:00+00:00"
    is_local := true, is_raw := false
    mem_rss := 1, mem_vms := 2, mem_shared := 3, mem_text := 4, mem_data := 5
    mem_lib := 6, mem_uss := 7, mem_pss := 8, mem_swap := 9
    cpu_percent := 12, cpu_times_user := 10, cpu_times_system := 11 }

/-- Container state after one cycle over `[procGood]` from a fresh container. -/
def stateOne : CState :=
  _handle_process_metrics [] (_reset initState) recGood

/-- Container state after a second cycle over `[procGood]` from `stateOne`. -/
def stateTwo : CState :=
  _handle_process_metrics [] (_reset stateOne) recGood

/-- A process whose command line passes the interpreter filter and holds the
`'airflow run'` marker, but whose matching token has too few sub-tokens for
the positional extraction. -/
def procShortTok : Proc :=
  { cmdline := ["/usr/bin/python", "airflow run x"]
    mem := { rss := 0, vms := 0, shared := 0, text := 0, data := 0,
             lib := 0, uss := 0, pss := 0, swap := 0 }
    cpu_times := { user := 0, system := 0 }
    cpu_percent := 0
    vanish := VanishStage.never }

/-- A matched process whose sub-token 5 (`"--local"`) is shorter than the
25-character slice bound. -/
def procShortDate : Proc :=
  { cmdline := ["/usr/bin/python /usr/bin/airflow run d o --local"]
    mem := { rss := 21, vms := 22, shared := 23, text := 24, data := 25,
             lib := 26, uss := 27, pss := 28, swap := 29 }
    cpu_times := { user := 30, system := 31 }
    cpu_percent := 32
    vanish := VanishStage.never }

/-- The record the scan yields for `procShortDate`: its `exec_date` has only
2 characters. -/
def recShortDate : ProcessMetrics :=
  { dag := "d", operator := "o", exec_date := "al"
    is_local := true, is_raw := false
    mem_rss := 21, mem_vms := 22, mem_shared := 23, mem_text := 24, mem_data := 25
    mem_lib := 26, mem_uss := 27, mem_pss := 28, mem_swap := 29
    cpu_percent := 32, cpu_times_user := 30, cpu_times_system := 31 }

/-- A process whose first command-line token is not the interpreter path,
although a later token carries the `'airflow run'` marker. -/
def procNoPy : Proc :=
  { cmdline := ["/bin/bash", "airflow run a b c d e --local"]
    mem := { rss := 0, vms := 0, shared := 0, text := 0, data := 0,
             lib := 0, uss := 0, pss := 0, swap := 0 }
    cpu_times := { user := 0, system := 0 }
    cpu_percent := 0
    vanish := VanishStage.never }

/-- A matched process that vanishes between the command-line fetch and the
memory fetch. -/
def procVanishMem : Proc :=
  { cmdline := ["/usr/bin/python /usr/bin/airflow run vdag vop 2023-04-04T00:00:00+00:00 --raw"]
    mem := { rss := 41, vms := 42, shared := 43, text := 44, data := 45,
             lib := 46, uss := 47, pss := 48, swap := 49 }
    cpu_times := { user := 50, system := 51 }
    cpu_percent := 52
    vanish := VanishStage.beforeMem }

/-- A process that has already vanished when its command line is fetched. -/
def procVanishCmd : Proc :=
  { cmdline := ["x"]
    mem := { rss := 0, vms := 0, shared := 0, text := 0, data := 0,
             lib := 0, uss := 0, pss := 0, swap := 0 }
    cpu_times := { user := 0, system := 0 }
    cpu_percent := 0
    vanish := VanishStage.beforeCmdline }

/-- Command line of the spec's concrete extraction case: the interpreter
filter passes and the second token is exactly the spec's matching token. -/
def cmdSpecCase : List String :=
  ["/usr/bin/python3",
   "airflow run my_dag my_task 2023-03-03T00:00:00+00:00 --local"]

/-- Command line whose matching token contains `"--local"` only inside the
sub-token `"--local=true"`, while a different command-line token is exactly
`"--local"`. -/
def cmdFlagNeg : List String :=
  ["/usr/bin/python /usr/bin/airflow run d o --local=true", "--local"]

/-- First concrete name-derivation record of the spec: the dag value is a
substring of the operator value. -/
def recEtl : ProcessMetrics :=
  { dag := "etl_pipeline", operator := "etl_pipeline_extract"
    exec_date := "2023-01-01T00:00:00", is_local := false, is_raw := false
    mem_rss := 0, mem_vms := 0, mem_shared := 0, mem_text := 0, mem_data := 0
    mem_lib := 0, mem_uss := 0, mem_pss := 0, mem_swap := 0
    cpu_percent := 0, cpu_times_user := 0, cpu_times_system := 0 }

/-- Second concrete name-derivation record of the spec: dag not a substring
of operator, local flag set. -/
def recReporting : ProcessMetrics :=
  { dag := "reporting", operator := "send_email"
    exec_date := "2023-02-02T00:00:00", is_local := true, is_raw := false
    mem_rss := 0, mem_vms := 0, mem_shared := 0, mem_text := 0, mem_data := 0
    mem_lib := 0, mem_uss := 0, mem_pss := 0, mem_swap := 0
    cpu_percent := 0, cpu_times_user := 0, cpu_times_system := 0 }

theorem except_bind_ok {ε α β : Type} (a : α) (f : α → Except ε β) :
    (Except.ok a >>= f) = f a := rfl

theorem except_bind_err {ε α β : Type} (e : ε) (f : α → Except ε β) :
    ((Except.error e : Except ε α) >>= f) = Except.error e := rfl

theorem except_pure {ε α : Type} (a : α) :
    (pure a : Except ε α) = Except.ok a := rfl

theorem except_map_ok {ε α β : Type} (f : α → β) (a : α) :
    (f <$> (Except.ok a : Except ε α)) = Except.ok (f a) := rfl

theorem except_map_err {ε α β : Type} (f : α → β) (e : ε) :
    (f <$> (Except.error e : Except ε α) : Except ε β) = Except.error e := rfl

theorem glookup_gset_self {α : Type} (g : GaugeState α) (l : Labels) (v : α) :
    glookup (gset g l v) l = some v := by
  induction g with
  | nil => simp [gset, glookup]
  | cons e t ih =>
    by_cases h : e.1 = l
    · simp [gset, glookup, h]
    · simp [gset, glookup, h, ih]

theorem glookup_gset_isSome {α : Type} (g : GaugeState α) (L l : Labels) (v : α)
    (h : (glookup (gset g L v) l).isSome = true) :
    l = L ∨ (glookup g l).isSome = true := by
  induction g with
  | nil =>
    by_cases hL : L = l
    · exact Or.inl hL.symm
    · simp [gset, glookup, hL] at h
  | cons e t ih =>
    by_cases h1 : e.1 = L
    · by_cases h2 : L = l
      · exact Or.inl h2.symm
      · right
        simp [gset, glookup, h1, h2] at h
        have h3 : e.1 ≠ l := fun hc => h2 (h1 ▸ hc)
        simp [glookup, h3, h]
    · by_cases h2 : e.1 = l
      · right; simp [glookup, h2]
      · simp [gset, glookup, h1, h2] at h
        rcases ih h with h' | h'
        · exact Or.inl h'
        · right; simp [glookup, h2, h']

theorem handle_mem_lib (gl : List (String × String)) (s : CState)
    (m : ProcessMetrics) :
    (_handle_process_metrics gl s m).mem_lib = s.mem_lib := rfl

theorem foldl_handle_mem_lib (gl : List (String × String))
    (rs : List ProcessMetrics) (s : CState) :
    (rs.foldl (_handle_process_metrics gl) s).mem_lib = s.mem_lib := by
  induction rs generalizing s with
  | nil => rfl
  | cons m t ih =>
    simp only [List.foldl_cons]
    rw [ih]
    exact handle_mem_lib gl s m

theorem glookup_gset_ne {α : Type} {L l : Labels} (h : l ≠ L)
    (g : GaugeState α) (v : α) :
    glookup (gset g L v) l = glookup g l := by
  induction g with
  | nil => simp [gset, glookup, Ne.symm h]
  | cons e t ih =>
    by_cases h1 : e.1 = L
    · simp [gset, glookup, h1, Ne.symm h]
    · by_cases h2 : e.1 = l <;> simp [gset, glookup, h1, h2, ih, h]

theorem tuple_handle (gl : List (String × String)) (s : CState)
    (m : ProcessMetrics) (l : Labels)
    (h : tupleInSomeGauge (_handle_process_metrics gl s m) l = true) :
    l = mkLabels gl m ∨ tupleInSomeGauge s l = true := by
  by_cases hl : l = mkLabels gl m
  · exact Or.inl hl
  · right
    obtain ⟨g1, g2, g3, g4, g5, g6, g7, g8, g9, g10, g11⟩ := s
    simp only [tupleInSomeGauge, _handle_process_metrics] at h
    simp only [glookup_gset_ne hl] at h
    exact h

theorem tuple_foldl (gl : List (String × String)) (rs : List ProcessMetrics)
    (s : CState) (l : Labels)
    (h : tupleInSomeGauge (rs.foldl (_handle_process_metrics gl) s) l = true) :
    l ∈ rs.map (mkLabels gl) ∨ tupleInSomeGauge s l = true := by
  induction rs generalizing s with
  | nil => exact Or.inr h
  | cons m t ih =>
    simp only [List.foldl_cons] at h
    rcases ih _ h with h' | h'
    · exact Or.inl (by simp [h'])
    · rcases tuple_handle gl s m l h' with h'' | h''
      · exact Or.inl (by simp [h''])
      · exact Or.inr h''

theorem tuple_reset (s : CState) (l : Labels)
    (h : tupleInSomeGauge (_reset s) l = true) :
    (glookup s.mem_lib l).isSome = true := by
  obtain ⟨g1, g2, g3, g4, g5, g6, g7, g8, g9, g10, g11⟩ := s
  simpa [tupleInSomeGauge, _reset, glookup] using h

theorem reset_mem_lib (s : CState) : (_reset s).mem_lib = s.mem_lib := rfl

theorem reset_eq_of_mem_lib (a b : CState) (h : a.mem_lib = b.mem_lib) :
    _reset a = _reset b := by
  cases a; cases b; simp_all [_reset]

theorem collectLoop_eq (gl : List (String × String)) (s : CState)
    (ps : List Proc) :
    collectLoop gl s ps =
      (_get_processes_metrics ps).map
        (fun rs => rs.foldl (_handle_process_metrics gl) s) := by
  induction ps generalizing s with
  | nil => rfl
  | cons p t ih =>
    cases hs : scanStep p with
    | error e =>
      cases e with
      | indexError => simp [collectLoop, _get_processes_metrics, hs, Except.map]
      | noSuchProcess => simp [collectLoop, _get_processes_metrics, hs, ih]
    | ok o =>
      cases o with
      | none => simp [collectLoop, _get_processes_metrics, hs, ih]
      | some m =>
        simp only [collectLoop, _get_processes_metrics, hs, ih]
        cases hr : _get_processes_metrics t <;> simp [Except.map]

theorem scanStep_vanish_cmd (p : Proc)
    (h : p.vanish = VanishStage.beforeCmdline) :
    scanStep p = Except.error PyErr.noSuchProcess := by
  simp [scanStep, fetchAt, h, VanishStage.rank, except_bind_err]

theorem scanStep_extract_err (p : Proc) (e : PyErr)
    (hv : p.vanish ≠ VanishStage.beforeCmdline)
    (hga : get_airflow_data p.cmdline = Except.error e) :
    scanStep p = Except.error e := by
  cases hvv : p.vanish <;>
    first
    | exact absurd hvv hv
    | simp [scanStep, fetchAt, hvv, VanishStage.rank, hga, except_bind_ok,
        except_bind_err]

theorem scanStep_no_match (p : Proc)
    (hv : p.vanish ≠ VanishStage.beforeCmdline)
    (hga : get_airflow_data p.cmdline = Except.ok none) :
    scanStep p = Except.ok none := by
  cases hvv : p.vanish <;>
    first
    | exact absurd hvv hv
    | simp [scanStep, fetchAt, hvv, VanishStage.rank, hga, except_bind_ok,
        except_bind_err, except_pure]

theorem scanStep_match_alive (p : Proc) (a : AirflowData)
    (hv : p.vanish = VanishStage.never)
    (hga : get_airflow_data p.cmdline = Except.ok (some a)) :
    scanStep p = Except.ok (some (buildRec a p.mem p.cpu_times p.cpu_percent)) := by
  simp [scanStep, fetchAt, hv, VanishStage.rank, hga, except_bind_ok,
    except_bind_err, except_pure]

theorem scanStep_match_vanished (p : Proc) (a : AirflowData)
    (hv1 : p.vanish ≠ VanishStage.beforeCmdline)
    (hv2 : p.vanish ≠ VanishStage.never)
    (hga : get_airflow_data p.cmdline = Except.ok (some a)) :
    scanStep p = Except.error PyErr.noSuchProcess := by
  cases hvv : p.vanish <;>
    first
    | exact absurd hvv hv1
    | exact absurd hvv hv2
    | simp [scanStep, fetchAt, hvv, VanishStage.rank, hga, except_bind_ok,
        except_bind_err, except_pure]

theorem scan_cons_skip (p : Proc) (ps : List Proc)
    (h : scanStep p = Except.ok none ∨
         scanStep p = Except.error PyErr.noSuchProcess) :
    _get_processes_metrics (p :: ps) = _get_processes_metrics ps := by
  rcases h with h | h <;> simp [_get_processes_metrics, h]

theorem scan_cons_yield (p : Proc) (ps : List Proc) (m : ProcessMetrics)
    (h : scanStep p = Except.ok (some m)) :
    _get_processes_metrics (p :: ps) =
      (_get_processes_metrics ps).map (fun rs => m :: rs) := by
  simp [_get_processes_metrics, h]

theorem findRun_spec (l : List String) (d : AirflowData)
    (h : findRun l = Except.ok (some d)) :
    ∃ tok, l.find? (fun t => pyIn "airflow run" t) = some tok ∧
      extractFromToken tok = Except.ok d := by
  induction l with
  | nil => simp [findRun] at h
  | cons tok rest ih =>
    by_cases hm : pyIn "airflow run" tok = true
    · refine ⟨tok, List.find?_cons_of_pos _ hm, ?_⟩
      simp only [findRun, hm, if_pos] at h
      cases he : extractFromToken tok with
      | error e => rw [he] at h; simp [Except.map] at h
      | ok a => rw [he] at h; simp only [Except.map, Except.ok.injEq, Option.some.injEq] at h; rw [h]
    · rw [List.find?_cons_of_neg _ hm]
      simp only [findRun, hm, if_neg, Bool.false_eq_true, if_false] at h
      exact ih h

theorem extract_spec (tok : String) (d : AirflowData)
    (h : extractFromToken tok = Except.ok d) :
    ∃ s3 s4 s5, (pySplitWs tok)[3]? = some s3 ∧
      (pySplitWs tok)[4]? = some s4 ∧
      (pySplitWs tok)[5]? = some s5 ∧
      d = { dag := s3, operator := s4, exec_date := pySlice s5 5 25,
            is_local := (pySplitWs tok).any (fun i => i == "--local"),
            is_raw := (pySplitWs tok).any (fun i => i == "--raw") } := by
  simp only [extractFromToken, pyGet] at h
  cases h3 : (pySplitWs tok)[3]? with
  | none => simp only [h3, except_bind_err] at h; simp at h
  | some s3 =>
    simp only [h3, except_bind_ok] at h
    cases h4 : (pySplitWs tok)[4]? with
    | none => simp only [h4, except_bind_err] at h; simp at h
    | some s4 =>
      simp only [h4, except_bind_ok] at h
      cases h5 : (pySplitWs tok)[5]? with
      | none => simp only [h5, except_map_err] at h; simp at h
      | some s5 =>
        simp only [h5, except_map_ok, except_bind_ok, except_pure,
          Except.ok.injEq] at h
        exact ⟨s3, s4, s5, rfl, rfl, rfl, h.symm⟩

theorem gad_findRun (cl : List String) (d : AirflowData)
    (h : get_airflow_data cl = Except.ok (some d)) :
    findRun cl = Except.ok (some d) := by
  cases cl with
  | nil => simp [get_airflow_data] at h
  | cons c0 rest =>
    by_cases hs : pyStarts c0 "/usr/bin/python" = false
    · simp [get_airflow_data, hs] at h
    · simpa [get_airflow_data, hs] using h

theorem gad_filter_fail (cl : List String)
    (hf : passesInterpFilter cl = false) :
    get_airflow_data cl = Except.ok none := by
  cases cl with
  | nil => rfl
  | cons c0 rest =>
    simp only [passesInterpFilter] at hf
    simp [get_airflow_data, hf]

theorem pySlice_length (s : String) (a b : Nat) :
    (pySlice s a b).length = min b s.length - a := by
  show ((s.data.take b).drop a).length = min b s.data.length - a
  rw [List.length_drop, List.length_take]

theorem scanStep_skip_filter (p : Proc)
    (hf : passesInterpFilter p.cmdline = false) :
    scanStep p = Except.ok none ∨
      scanStep p = Except.error PyErr.noSuchProcess := by
  by_cases hv : p.vanish = VanishStage.beforeCmdline
  · exact Or.inr (scanStep_vanish_cmd p hv)
  · exact Or.inl (scanStep_no_match p hv (gad_filter_fail _ hf))

theorem recordOf_eq_none (p : Proc) (h : isMatch p.cmdline = false) :
    recordOf p = none := by
  simp only [isMatch] at h
  simp only [recordOf]
  cases hga : get_airflow_data p.cmdline with
  | error e => rfl
  | ok o => cases o with
    | none => rfl
    | some a => rw [hga] at h; simp at h

theorem scan_eq_cycleRecords (ps : List Proc)
    (hw : ps.all (fun p => noExtractError p.cmdline) = true) :
    _get_processes_metrics ps = Except.ok (cycleRecords ps) := by
  induction ps with
  | nil => rfl
  | cons p t ih =>
    rw [List.all_cons, Bool.and_eq_true] at hw
    obtain ⟨hp, ht⟩ := hw
    have iht := ih ht
    by_cases hbc : p.vanish = VanishStage.beforeCmdline
    · rw [scan_cons_skip p t (Or.inr (scanStep_vanish_cmd p hbc)), iht]
      simp [cycleRecords, List.filterMap_cons, hbc]
    · cases hga : get_airflow_data p.cmdline with
      | error e => simp [noExtractError, hga] at hp
      | ok o =>
        cases o with
        | none =>
          rw [scan_cons_skip p t (Or.inl (scanStep_no_match p hbc hga)), iht]
          simp [cycleRecords, List.filterMap_cons, recordOf, hga]
        | some a =>
          by_cases hnv : p.vanish = VanishStage.never
          · rw [scan_cons_yield p t _ (scanStep_match_alive p a hnv hga), iht]
            simp [Except.map, cycleRecords, List.filterMap_cons, hnv,
              recordOf, hga]
          · rw [scan_cons_skip p t
              (Or.inr (scanStep_match_vanished p a hbc hnv hga)), iht]
            simp [cycleRecords, List.filterMap_cons, hnv]

theorem cycleRecords_length (ps : List Proc) :
    (cycleRecords ps).length = liveMatchedCount ps := by
  induction ps with
  | nil => rfl
  | cons p t ih =>
    simp only [cycleRecords, liveMatchedCount] at ih ⊢
    rw [List.filterMap_cons, List.filter_cons]
    by_cases hv : p.vanish = VanishStage.never
    · cases hm : isMatch p.cmdline with
      | false =>
        rw [recordOf_eq_none p hm]
        simp only [ite_self, Bool.and_false, Bool.false_eq_true, if_false]
        exact ih
      | true =>
        have hsome : ∃ r, recordOf p = some r := by
          simp only [isMatch] at hm
          simp only [recordOf]
          cases hga : get_airflow_data p.cmdline with
          | error e => rw [hga] at hm; simp at hm
          | ok o =>
            cases o with
            | none => rw [hga] at hm; simp at hm
            | some a => exact ⟨_, rfl⟩
        obtain ⟨r, hr⟩ := hsome
        have hcb : (p.vanish == VanishStage.never) = true := by simp [hv]
        rw [hr, hcb]
        exact congrArg (fun n => n + 1) ih
    · have hcb : (p.vanish == VanishStage.never) = false := by simp [hv]
      rw [hcb]
      exact ih

/-- C1: every collection cycle clears the previously-set label-value tuples
of the owned gauges before writing, so for any record of cycle N whose label
tuple does not recur among cycle N+1's records, after cycle N+1's `collect`
no gauge exposes that label tuple.  (`mem_lib` starts empty at construction,
is never written and stays empty, so the clearing of the other ten gauges
suffices.) -/
theorem collect_stale_series_eliminated
    (gl : List (String × String)) (s s1 s2 : CState) (ps1 ps2 : List Proc)
    (rs1 rs2 : List ProcessMetrics) (m : ProcessMetrics)
    (hlib : s.mem_lib = [])
    (h1 : collectCycle gl s ps1 = Except.ok s1)
    (hr1 : _get_processes_metrics ps1 = Except.ok rs1)
    (h2 : collectCycle gl s1 ps2 = Except.ok s2)
    (hr2 : _get_processes_metrics ps2 = Except.ok rs2)
    (hm : m ∈ rs1)
    (habs : mkLabels gl m ∉ rs2.map (mkLabels gl)) :
    tupleInSomeGauge s2 (mkLabels gl m) = false := by
  simp only [collectCycle] at h1 h2
  rw [collectLoop_eq, hr1] at h1
  rw [collectLoop_eq, hr2] at h2
  simp only [Except.map, Except.ok.injEq] at h1 h2
  have hlib1 : s1.mem_lib = [] := by
    rw [← h1, foldl_handle_mem_lib, reset_mem_lib, hlib]
  cases hres : tupleInSomeGauge s2 (mkLabels gl m) with
  | false => rfl
  | true =>
    exfalso
    rw [← h2] at hres
    rcases tuple_foldl gl rs2 (_reset s1) (mkLabels gl m) hres with hin | hre
    · exact habs hin
    · have hlk := tuple_reset s1 (mkLabels gl m) hre
      rw [hlib1] at hlk
      simp [glookup] at hlk

/-- Witness for C1 at a concrete two-cycle run: `procGood` is matched in
cycle one and absent from cycle two's process list, and after cycle two its
label tuple is gone from every gauge. -/
theorem collect_stale_series_eliminated_witness :
    tupleInSomeGauge (_reset stateOne) (mkLabels [] recGood) = false :=
  collect_stale_series_eliminated [] initState stateOne (_reset stateOne)
    [procGood] [] [recGood] [] recGood rfl rfl rfl rfl rfl
    (List.mem_singleton.mpr rfl) (by simp)

/-- C2 counterexample: on the spec's concrete matching token
`"airflow run my_dag my_task 2023-03-03T00:00:00+00:00 --local"` the code
extracts `dag = "my_task"` (0-indexed sub-token 3), not `"my_dag"` as the
claim states. -/
theorem extraction_spec_case_counterexample :
    get_airflow_data cmdSpecCase =
      Except.ok (some { dag := "my_task", operator := "2023-03-03T00:00:00+00:00",
                        exec_date := "al", is_local := true, is_raw := false }) ∧
    "my_task" ≠ "my_dag" :=
  ⟨rfl, by decide⟩

/-- C2 amended: on that matching token the heuristic yields
`dag = "my_task"`, `operator = "2023-03-03T00:00:00+00:00"`,
`exec_date = "al"` (characters 5-24 of sub-token 5 `"--local"`, clamped),
`is_local = true`, `is_raw = false`, because the code indexes sub-tokens
3/4/5 from 0 and expects the interpreter and script paths to precede the
marker inside the same token. -/
theorem extraction_spec_case_actual :
    get_airflow_data cmdSpecCase =
      Except.ok (some { dag := "my_task", operator := "2023-03-03T00:00:00+00:00",
                        exec_date := "al", is_local := true, is_raw := false }) :=
  rfl

/-- C3: the derived name label is the dag-prefixed (unless the dag value is
a substring of the operator value) operator, then the exec date, then
`_local` and `_is_raw` for the set flags, joined with underscores; with the
spec's two concrete cases. -/
theorem name_label_derivation :
    (∀ m : ProcessMetrics,
      _get_process_name m =
        (if pyIn m.dag m.operator = false then m.dag ++ "." ++ m.operator
         else m.operator)
          ++ "_" ++ m.exec_date
          ++ (if m.is_local then "_local" else "")
          ++ (if m.is_raw then "_is_raw" else "")) ∧
    _get_process_name recEtl = "etl_pipeline_extract_2023-01-01T00:00:00" ∧
    _get_process_name recReporting =
      "reporting.send_email_2023-02-02T00:00:00_local" := by
  refine ⟨fun m => ?_, rfl, rfl⟩
  by_cases hd : pyIn m.dag m.operator = false <;>
  by_cases hl : m.is_local = true <;>
  by_cases hr : m.is_raw = true <;>
  simp [_get_process_name, pyJoin, hd, hl, hr, String.append_assoc,
    String.append_empty]

/-- C4 counterexample: a process whose matching token `"airflow run x"` has
too few sub-tokens raises an uncaught `IndexError` that aborts the whole
scan, losing the record of the healthy process behind it. -/
theorem malformed_token_aborts_scan :
    _get_processes_metrics [procShortTok, procGood] =
      Except.error PyErr.indexError ∧
    _get_processes_metrics [procGood] = Except.ok [recGood] :=
  ⟨rfl, rfl⟩

/-- C4 amended: errors from vanished processes (`NoSuchProcess`) never abort
the scan of the remaining processes — the scan completes for every process
set whose matching tokens are well-formed; only a matching token with too
few sub-tokens raises an uncaught `IndexError` that aborts the scan. -/
theorem scan_resilient_when_tokens_wellformed (ps : List Proc)
    (hw : ps.all (fun p => noExtractError p.cmdline) = true) :
    ∃ rs, _get_processes_metrics ps = Except.ok rs :=
  ⟨cycleRecords ps, scan_eq_cycleRecords ps hw⟩

/-- Witness for the amended C4: a scan over a process vanished before its
command-line fetch, a healthy matched process and a process vanished before
its memory fetch completes without error. -/
theorem scan_resilient_when_tokens_wellformed_witness :
    ∃ rs, _get_processes_metrics [procVanishCmd, procGood, procVanishMem] =
      Except.ok rs :=
  scan_resilient_when_tokens_wellformed [procVanishCmd, procGood, procVanishMem]
    (by rfl)

/-- C5 counterexample: after a cycle that handles `recGood`, the `mem_lib`
gauge — one of the eleven created at construction — holds no value under the
record's label tuple, while `mem_rss` does: only ten gauges are written, so
`mem_data` is not the only collected field that goes unpublished. -/
theorem mem_lib_gauge_never_set :
    collectCycle [] initState [procGood] = Except.ok stateOne ∧
    glookup stateOne.mem_lib (mkLabels [] recGood) = none ∧
    glookup stateOne.mem_rss (mkLabels [] recGood) = some 1 :=
  ⟨rfl, rfl, rfl⟩

/-- C5 amended: for every handled record, each of the ten written gauges
(seven memory, three CPU) exposes the corresponding field of the record
under the record's label mapping; `mem_data` and `mem_lib` are collected in
the record but not published (`mem_lib`'s gauge is left untouched). -/
theorem ten_gauges_published_per_record (gl : List (String × String))
    (s : CState) (m : ProcessMetrics) :
    glookup (_handle_process_metrics gl s m).mem_rss (mkLabels gl m) =
      some m.mem_rss ∧
    glookup (_handle_process_metrics gl s m).mem_vms (mkLabels gl m) =
      some m.mem_vms ∧
    glookup (_handle_process_metrics gl s m).mem_shared (mkLabels gl m) =
      some m.mem_shared ∧
    glookup (_handle_process_metrics gl s m).mem_text (mkLabels gl m) =
      some m.mem_text ∧
    glookup (_handle_process_metrics gl s m).mem_uss (mkLabels gl m) =
      some m.mem_uss ∧
    glookup (_handle_process_metrics gl s m).mem_swap (mkLabels gl m) =
      some m.mem_swap ∧
    glookup (_handle_process_metrics gl s m).mem_pss (mkLabels gl m) =
      some m.mem_pss ∧
    glookup (_handle_process_metrics gl s m).cpu_percent (mkLabels gl m) =
      some m.cpu_percent ∧
    glookup (_handle_process_metrics gl s m).cpu_times_user (mkLabels gl m) =
      some m.cpu_times_user ∧
    glookup (_handle_process_metrics gl s m).cpu_times_system (mkLabels gl m) =
      some m.cpu_times_system ∧
    (_handle_process_metrics gl s m).mem_lib = s.mem_lib := by
  refine ⟨?_, ?_, ?_, ?_, ?_, ?_, ?_, ?_, ?_, ?_, rfl⟩ <;>
    exact glookup_gset_self _ _ _

/-- Witness for the amended C5 at a concrete record: each of the ten
written gauges exposes `recGood`'s fields; `mem_lib` is untouched. -/
theorem ten_gauges_published_per_record_witness :
    glookup (_handle_process_metrics [] initState recGood).mem_rss
      (mkLabels [] recGood) = some recGood.mem_rss ∧
    glookup (_handle_process_metrics [] initState recGood).mem_vms
      (mkLabels [] recGood) = some recGood.mem_vms ∧
    glookup (_handle_process_metrics [] initState recGood).mem_shared
      (mkLabels [] recGood) = some recGood.mem_shared ∧
    glookup (_handle_process_metrics [] initState recGood).mem_text
      (mkLabels [] recGood) = some recGood.mem_text ∧
    glookup (_handle_process_metrics [] initState recGood).mem_uss
      (mkLabels [] recGood) = some recGood.mem_uss ∧
    glookup (_handle_process_metrics [] initState recGood).mem_swap
      (mkLabels [] recGood) = some recGood.mem_swap ∧
    glookup (_handle_process_metrics [] initState recGood).mem_pss
      (mkLabels [] recGood) = some recGood.mem_pss ∧
    glookup (_handle_process_metrics [] initState recGood).cpu_percent
      (mkLabels [] recGood) = some recGood.cpu_percent ∧
    glookup (_handle_process_metrics [] initState recGood).cpu_times_user
      (mkLabels [] recGood) = some recGood.cpu_times_user ∧
    glookup (_handle_process_metrics [] initState recGood).cpu_times_system
      (mkLabels [] recGood) = some recGood.cpu_times_system ∧
    (_handle_process_metrics [] initState recGood).mem_lib =
      initState.mem_lib :=
  ten_gauges_published_per_record [] initState recGood

/-- C6: when every command line extracts without raising, a scan over
processes that may vanish at any fetch completes without error, yields only
complete records of processes that stayed present, and the number of yielded
records equals the count of matched processes that remained present through
the fetches. -/
theorem scan_completes_and_counts (ps : List Proc)
    (hw : ps.all (fun p => noExtractError p.cmdline) = true) :
    _get_processes_metrics ps = Except.ok (cycleRecords ps) ∧
    (cycleRecords ps).length = liveMatchedCount ps :=
  ⟨scan_eq_cycleRecords ps hw, cycleRecords_length ps⟩

/-- Witness for C6 at a concrete mix of a healthy matched process, two
vanished processes and a non-matching process. -/
theorem scan_completes_and_counts_witness :
    _get_processes_metrics [procGood, procVanishMem, procVanishCmd, procNoPy] =
      Except.ok (cycleRecords [procGood, procVanishMem, procVanishCmd, procNoPy]) ∧
    (cycleRecords [procGood, procVanishMem, procVanishCmd, procNoPy]).length =
      liveMatchedCount [procGood, procVanishMem, procVanishCmd, procNoPy] :=
  scan_completes_and_counts _ (by rfl)

/-- C7: two consecutive `collect` cycles over the same process table leave
the container in identical states — the same published label tuples with the
same values. -/
theorem collect_idempotent (gl : List (String × String)) (s s1 s2 : CState)
    (ps : List Proc)
    (h1 : collectCycle gl s ps = Except.ok s1)
    (h2 : collectCycle gl s1 ps = Except.ok s2) :
    s2 = s1 := by
  simp only [collectCycle] at h1 h2
  rw [collectLoop_eq] at h1 h2
  cases hscan : _get_processes_metrics ps with
  | error e => rw [hscan] at h1; simp [Except.map] at h1
  | ok rs =>
    rw [hscan] at h1 h2
    simp only [Except.map, Except.ok.injEq] at h1 h2
    have hml : s1.mem_lib = s.mem_lib := by
      rw [← h1, foldl_handle_mem_lib, reset_mem_lib]
    rw [← h2, reset_eq_of_mem_lib s1 s hml, h1]

/-- Witness for C7: collecting `[procGood]` twice in a row from a fresh
container produces the same state both times. -/
theorem collect_idempotent_witness : stateTwo = stateOne :=
  collect_idempotent [] initState stateOne stateTwo [procGood] rfl rfl

/-- C8 counterexample: the matched process `procShortDate`, whose sub-token
5 is `"--local"`, yields a record whose `exec_date` is the 2-character
string `"al"` — the slice is clamped, not a fixed 20 characters. -/
theorem exec_date_shorter_than_20 :
    _get_processes_metrics [procShortDate] = Except.ok [recShortDate] ∧
    recShortDate.exec_date.length ≠ 20 :=
  ⟨rfl, by decide⟩

/-- C8 amended: for every matched command line, `exec_date` is the slice of
sub-token 5 (0-indexed) of the first marker token from character 5 up to
character 25, clamped at the sub-token's end: its length is 20 exactly when
the sub-token has at least 25 characters, and `min 20 (length - 5)` in
general. -/
theorem exec_date_clamped_slice (cl : List String) (tok s5 : String)
    (d : AirflowData)
    (hfind : cl.find? (fun t => pyIn "airflow run" t) = some tok)
    (h5 : (pySplitWs tok)[5]? = some s5)
    (h : get_airflow_data cl = Except.ok (some d)) :
    d.exec_date = pySlice s5 5 25 ∧
    d.exec_date.length = min 20 (s5.length - 5) := by
  obtain ⟨tok', hfind', hx⟩ := findRun_spec cl d (gad_findRun cl d h)
  rw [hfind] at hfind'
  have htok : tok' = tok := (Option.some.inj hfind').symm
  subst htok
  obtain ⟨s3, s4, s5', h3, h4, h5', hd⟩ := extract_spec tok' d hx
  rw [h5] at h5'
  have hs5 : s5' = s5 := (Option.some.inj h5').symm
  subst hs5
  subst hd
  refine ⟨rfl, ?_⟩
  show (pySlice s5' 5 25).length = min 20 (s5'.length - 5)
  rw [pySlice_length]
  omega

/-- Witness for the amended C8 on `procShortDate`'s command line: sub-token
5 is `"--local"` and the resulting `exec_date` is its clamped slice `"al"`. -/
theorem exec_date_clamped_slice_witness :
    (AirflowData.mk "d" "o" "al" true false).exec_date = pySlice "--local" 5 25 ∧
    (AirflowData.mk "d" "o" "al" true false).exec_date.length =
      min 20 ("--local".length - 5) :=
  exec_date_clamped_slice
    ["/usr/bin/python /usr/bin/airflow run d o --local"]
    "/usr/bin/python /usr/bin/airflow run d o --local" "--local"
    (AirflowData.mk "d" "o" "al" true false) rfl rfl rfl

/-- C9: a process whose command line is empty or whose first token does not
start with `/usr/bin/python` contributes no record to the scan, regardless
of its later tokens — removing it from the process list leaves the scan's
result unchanged. -/
theorem no_record_without_interp_path (ps1 ps2 : List Proc) (p : Proc)
    (hf : passesInterpFilter p.cmdline = false) :
    _get_processes_metrics (ps1 ++ p :: ps2) =
      _get_processes_metrics (ps1 ++ ps2) := by
  induction ps1 with
  | nil => exact scan_cons_skip p ps2 (scanStep_skip_filter p hf)
  | cons q t ih =>
    simp only [List.cons_append]
    cases hs : scanStep q with
    | error e =>
      cases e with
      | indexError => simp [_get_processes_metrics, hs]
      | noSuchProcess => simp [_get_processes_metrics, hs, ih]
    | ok o =>
      cases o with
      | none => simp [_get_processes_metrics, hs, ih]
      | some m => simp [_get_processes_metrics, hs, ih]

/-- Witness for C9: `procNoPy` starts with `/bin/bash` and carries the
marker in a later token, yet its presence does not change the scan. -/
theorem no_record_without_interp_path_witness :
    _get_processes_metrics ([procGood] ++ procNoPy :: []) =
      _get_processes_metrics ([procGood] ++ []) :=
  no_record_without_interp_path [procGood] [] procNoPy rfl

/-- C10: for every matched command line, `is_local` is true exactly when
some whitespace-delimited sub-token of the first marker token is the string
`"--local"`, and `is_raw` exactly when some sub-token is `"--raw"`; tokens
other than the marker token and sub-tokens merely containing the flag are
ignored. -/
theorem flags_exact_subtoken_match (cl : List String) (tok : String)
    (d : AirflowData)
    (hfind : cl.find? (fun t => pyIn "airflow run" t) = some tok)
    (h : get_airflow_data cl = Except.ok (some d)) :
    d.is_local = (pySplitWs tok).any (fun i => i == "--local") ∧
    d.is_raw = (pySplitWs tok).any (fun i => i == "--raw") := by
  obtain ⟨tok', hfind', hx⟩ := findRun_spec cl d (gad_findRun cl d h)
  rw [hfind] at hfind'
  have htok : tok' = tok := (Option.some.inj hfind').symm
  subst htok
  obtain ⟨s3, s4, s5, h3, h4, h5, hd⟩ := extract_spec tok' d hx
  subst hd
  exact ⟨rfl, rfl⟩

/-- Witness for C10 on `cmdFlagNeg`: the marker token's sub-token
`"--local=true"` does not set `is_local`, although a different command-line
token is exactly `"--local"`. -/
theorem flags_exact_subtoken_match_witness :
    (AirflowData.mk "d" "o" "al=true" false false).is_local =
      (pySplitWs "/usr/bin/python /usr/bin/airflow run d o --local=true").any
        (fun i => i == "--local") ∧
    (AirflowData.mk "d" "o" "al=true" false false).is_raw =
      (pySplitWs "/usr/bin/python /usr/bin/airflow run d o --local=true").any
        (fun i => i == "--raw") :=
  flags_exact_subtoken_match cmdFlagNeg
    "/usr/bin/python /usr/bin/airflow run d o --local=true"
    (AirflowData.mk "d" "o" "al=true" false false) rfl rfl

end AirflowMetrics
